import Mathlib

/-!
Shallow embedding of the `bluesky_tool` repository (files
`storage.py`, `automator.py`, `client.py`, `config.py`) and proofs about
its natural-language specification.

Modelling conventions:
* Python `set[str]` becomes `Finset String`; Python `dict` becomes an
  insertion-ordered association list `List (String × α)` (Python dicts
  preserve insertion order and have unique keys), with `dict.get` as
  `List.lookup` and `d[k] = v` as `pyInsert` (replace-in-place or append,
  exactly like CPython).
* Python floats (delays, cooldown hours, timestamps) are modelled as `Rat`;
  the code only adds, subtracts and compares them, so exact arithmetic is a
  faithful model of the values the code manipulates.
* Remote I/O is modelled by a `World` record of oracles giving the response
  of every remote call; exceptions become `Option`/sum results.
* Side effects that matter to the spec (follow / like / conversation /
  send-message requests and rate-limiting sleeps) are collected in an
  explicit `Effect` trace.
-/

namespace BlueskyTool

/-- A Python value stored in a follower/post record: either a `str`
(`isinstance(x, str)` holds) or some non-string object, carried with the
string `str(x)` would produce (used only when such a value is formatted). -/
inductive PyVal where
  | vstr (s : String)
  | vother (shown : String)
deriving DecidableEq, Repr

/-- Model of `str(x)` of a `PyVal`, as used by `format`. -/
def PyVal.toStr : PyVal → String
  | .vstr s => s
  | .vother shown => shown

/-- A follower record: a Python dict from string keys to values
(dict ≙ insertion-ordered association list). -/
abbrev Follower := List (String × PyVal)

/-- Model of `follower.get(key)` (Python `dict.get`, `None` when absent). -/
def Follower.get (f : Follower) (key : String) : Option PyVal :=
  List.lookup key f

/-- The follower's `"did"` value when it is present and a string
(`isinstance(follower_did, str)`); `none` when missing or non-string. -/
def Follower.strDid (f : Follower) : Option String :=
  match f.get "did" with
  | some (.vstr s) => some s
  | _ => none

/-! ## storage.py -/

/-- Model of `TargetState` (storage.py): engagement metadata for one follow target.
`followed` and `liked_posts` are Python sets of strings. -/
structure TargetState where
  followed : Finset String := ∅
  liked_posts : Finset String := ∅
deriving DecidableEq

/-- Model of `AccountState` (storage.py): per-account automation state.
`dm_history` maps follower DID to an ISO timestamp string; `targets` maps a
target handle to its `TargetState`; both are Python dicts. -/
structure AccountState where
  known_followers : Finset String := ∅
  dm_history : List (String × String) := []
  targets : List (String × TargetState) := []
deriving DecidableEq

/-- CPython `d[k] = v` on a dict-as-association-list: replace the value in
place when the key is present, append otherwise. -/
def pyInsert {α : Type} : List (String × α) → String → α → List (String × α)
  | [], k, v => [(k, v)]
  | p :: rest, k, v =>
      if p.1 = k then (p.1, v) :: rest else p :: pyInsert rest k v

/-- CPython `dict(pairs)`: left fold of `pyInsert` over the pairs. -/
def pyDict {α : Type} (l : List (String × α)) : List (String × α) :=
  l.foldl (fun acc p => pyInsert acc p.1 p.2) []

/-- Serialized form of a `TargetState` (`TargetState.to_dict`):
`{"followed": sorted list, "liked_posts": sorted list}`. -/
structure TargetDict where
  followed : List String
  liked_posts : List String
deriving DecidableEq

/-- Model of `TargetState.to_dict` (storage.py): sets written as sorted lists. -/
def TargetState.to_dict (t : TargetState) : TargetDict :=
  ⟨t.followed.sort (· ≤ ·), t.liked_posts.sort (· ≤ ·)⟩

/-- Model of `TargetState.from_dict` (storage.py): `set(data.get(...))`. -/
def TargetState.from_dict (d : TargetDict) : TargetState :=
  ⟨d.followed.toFinset, d.liked_posts.toFinset⟩

/-- Serialized form of an `AccountState` (`AccountState.to_dict`), i.e. the
JSON object written to disk (JSON round-trips these strings and lists
unchanged, so the file content is modelled by this structure itself). -/
structure AccountDict where
  known_followers : List String
  dm_history : List (String × String)
  targets : List (String × TargetDict)
deriving DecidableEq

/-- Model of `AccountState.to_dict` (storage.py). -/
def AccountState.to_dict (s : AccountState) : AccountDict :=
  ⟨s.known_followers.sort (· ≤ ·),
   s.dm_history,
   s.targets.map (fun p => (p.1, p.2.to_dict))⟩

/-- Model of `AccountState.from_dict` (storage.py): `set(...)` for
`known_followers`, `dict(...)` for `dm_history`, and a dict comprehension
(`{name: TargetState.from_dict(value) ...}`) for `targets`. -/
def AccountState.from_dict (d : AccountDict) : AccountState :=
  ⟨d.known_followers.toFinset,
   pyDict d.dm_history,
   pyDict (d.targets.map (fun p => (p.1, TargetState.from_dict p.2)))⟩

/-- The character class `[a-zA-Z0-9_.-]` of `StateStore._path_for`. -/
def safeChar (c : Char) : Bool :=
  (('a' ≤ c && c ≤ 'z') || ('A' ≤ c && c ≤ 'Z') || ('0' ≤ c && c ≤ '9')
    || c = '_' || c = '.' || c = '-')

/-- Model of `re.sub(r"[^a-zA-Z0-9_.-]", "_", handle)` (storage.py line 70): the
pattern matches single characters, so the substitution is a character-wise
map over the handle. -/
def sanitizeHandle (handle : String) : String :=
  String.mk (handle.data.map (fun c => if safeChar c then c else '_'))

/-- Model of `StateStore._path_for` (storage.py): the file name under the store root. -/
def path_for (handle : String) : String :=
  sanitizeHandle handle ++ ".json"

/-- The state store's directory contents: file name ↦ parsed JSON record. -/
def Store := String → Option AccountDict

/-- Model of `StateStore.save` (storage.py): overwrite the record at
`_path_for handle` with the full serialized snapshot. -/
def Store.save (store : Store) (handle : String) (s : AccountState) : Store :=
  fun p => if p = path_for handle then some s.to_dict else store p

/-- Model of `StateStore.load` (storage.py): default-empty state when the file does
not exist, otherwise deserialize it. -/
def Store.load (store : Store) (handle : String) : AccountState :=
  match store (path_for handle) with
  | none => {}
  | some d => AccountState.from_dict d

/-! ## config.py (the fields the engine reads) -/

/-- Model of `TargetConfig` (config.py). Limits are Python ints (possibly negative). -/
structure TargetConfig where
  handle : String
  follow_limit : Option Int := none
  like_latest_post : Bool := true
  like_limit : Option Int := none
deriving DecidableEq

/-- Model of `DMConfig` (config.py). `cooldown_hours` is a float, modelled as `Rat`. -/
structure DMConfig where
  enabled : Bool := false
  message : String := ""
  limit_per_run : Option Int := none
  cooldown_hours : Rat := 0
deriving DecidableEq

/-- Model of `AccountConfig` (config.py): the fields the engine reads. Credentials,
service URL, proxy and page size only parameterize the HTTP transport and
are absorbed into the `World` oracles. -/
structure AccountConfig where
  handle : String
  follow_targets : List TargetConfig := []
  dm : DMConfig := {}
  follow_delay_seconds : Option Rat := some (5/2)
  like_delay_seconds : Option Rat := some (5/2)

/-- Model of `Config` (config.py): the global defaults the engine reads. -/
structure Config where
  default_follow_delay_seconds : Rat := 5/2
  default_like_delay_seconds : Rat := 5/2
deriving DecidableEq

/-! ## Cooldown policy (`_should_send_dm`, automator.py 260-283) -/

/-- Result of `datetime.fromisoformat`: the clock reading in seconds (exact,
as `Rat`) and the parsed UTC offset, `none` for a naive timestamp. -/
structure ParsedTime where
  naive : Rat
  tzOffset : Option Rat
deriving DecidableEq

/-- Model of `_should_send_dm` (automator.py 260-283). `parse` is the oracle for
`datetime.fromisoformat` (`none` ≙ `ValueError`); `now` is
`datetime.now(timezone.utc)` as seconds. Mirrors the source line by line:
no `dm_history` entry ⇒ `True`; `not cooldown` (i.e. `None` or the zero
`timedelta`) ⇒ `False`; a falsy (empty) stored string ⇒ `True`; an
unparseable string ⇒ `True`; otherwise a naive timestamp gets
`tzinfo=timezone.utc` attached (UTC instant = clock reading − offset, with
offset 0 when naive) and the answer is `now − last_sent ≥ cooldown`. -/
def shouldSendDm (parse : String → Option ParsedTime) (now : Rat)
    (did : String) (dm_history : List (String × String))
    (cooldown : Option Rat) : Bool :=
  if List.lookup did dm_history = none then true
  else
    match cooldown with
    | none => false
    | some d =>
      if d = 0 then false
      else
        match List.lookup did dm_history with
        | none => true
        | some lastStr =>
          if lastStr = "" then true
          else
            match parse lastStr with
            | none => true
            | some t => decide (now - (t.naive - t.tzOffset.getD 0) ≥ d)

/-- Modelled from the spec (§4.2, claim C4): the instant a stored timestamp
denotes — empty or unparseable strings denote no instant; naive timestamps
are interpreted as UTC. -/
def specStoredInstant (parse : String → Option ParsedTime) (stored : String) :
    Option Rat :=
  if stored = "" then none
  else
    match parse stored with
    | none => none
    | some t => some (t.naive - t.tzOffset.getD 0)

/-- Modelled from the spec (§4.2, claim C4): the Cooldown Policy in the
spec's words — eligible when the identifier has no `dm_history` entry;
ineligible when an entry exists and no cooldown is configured (zero or
unset); otherwise eligible iff the elapsed time since the stored timestamp
is at least the cooldown (empty or unparseable timestamps ⇒ eligible). -/
def specEligible (parse : String → Option ParsedTime) (now : Rat)
    (did : String) (dm_history : List (String × String))
    (cooldown : Option Rat) : Bool :=
  match List.lookup did dm_history with
  | none => true
  | some stored =>
    match cooldown with
    | none => false
    | some d =>
      if d = 0 then false
      else
        match specStoredInstant parse stored with
        | none => true
        | some instant => decide (now - instant ≥ d)

/-! ## Template rendering (`SafeDict` / `_render_message`, automator.py
20-24 and 285-291)

`str.format_map` is modelled over the fragment the automator feeds it:
literal text, doubled braces, and simple named replacement fields. A field
with attribute access, indexing, a conversion or a format spec
(`.`, `[`, `!`, `:`), an empty field, or an integer field (positional —
under `format_map` there are no positional arguments, so CPython raises) is
modelled as an error, as are unbalanced braces. `none` ≙ CPython raising. -/

/-- Characters that end or structure a replacement field. -/
def badFieldChar (c : Char) : Bool :=
  c = '{' || c = '}' || c = '!' || c = ':' || c = '.' || c = '['

/-- A replacement field that `format_map` resolves through the mapping: a
nonempty plain name that is not an integer (CPython treats an empty or
all-digit field as positional). -/
def fieldOk (name : List Char) : Bool :=
  !name.isEmpty && name.all (fun c => !badFieldChar c)
    && !name.all (fun c => c.isDigit)

/-- The `format_map` scanner. Second argument: `none` in literal-text mode,
`some acc` inside a replacement field with `acc` the reversed field text
read so far. `L` is the (total) mapping lookup. -/
def scanA (L : String → String) : List Char → Option (List Char) → Option (List Char)
  | [], none => some []
  | '{' :: '{' :: rest, none => (scanA L rest none).map (fun r => '{' :: r)
  | '{' :: rest, none => scanA L rest (some [])
  | '}' :: '}' :: rest, none => (scanA L rest none).map (fun r => '}' :: r)
  | '}' :: _, none => none
  | c :: rest, none => (scanA L rest none).map (fun r => c :: r)
  | [], some _ => none
  | '}' :: rest, some acc =>
      if fieldOk acc.reverse then
        (scanA L rest none).map (fun r => (L (String.mk acc.reverse)).data ++ r)
      else none
  | c :: rest, some acc => scanA L rest (some (c :: acc))

/-- Model of `template.format_map(mapping)` with total lookup `L` (see above). -/
def pyFormatMap (template : String) (L : String → String) : Option String :=
  (scanA L template.data none).map String.mk

/-- The `SafeDict(handle=…, displayName=…, did=…)` built by
`_render_message`: the three recognized keys hold `follower.get(key, "")`
(formatted with `str`), and `SafeDict.__missing__` resolves every other key
to the empty string. -/
def renderLookup (follower : Follower) (key : String) : String :=
  if key = "handle" then ((follower.get "handle").getD (.vstr "")).toStr
  else if key = "displayName" then ((follower.get "displayName").getD (.vstr "")).toStr
  else if key = "did" then ((follower.get "did").getD (.vstr "")).toStr
  else ""

/-- Model of `_render_message` (automator.py 285-291). -/
def render_message (template : String) (follower : Follower) : Option String :=
  pyFormatMap template (renderLookup follower)

/-- Modelled from the spec (§4.1b, claim C3): whether a template consists
only of literal text, doubled braces and simple named placeholders —
mirrors the scanner's modes. -/
def wfA : List Char → Option (List Char) → Bool
  | [], none => true
  | '{' :: '{' :: rest, none => wfA rest none
  | '{' :: rest, none => wfA rest (some [])
  | '}' :: '}' :: rest, none => wfA rest none
  | '}' :: _, none => false
  | _ :: rest, none => wfA rest none
  | [], some _ => false
  | '}' :: rest, some acc => fieldOk acc.reverse && wfA rest none
  | c :: rest, some acc => wfA rest (some (c :: acc))

/-- A template in the well-formed fragment (see `wfA`). -/
def wellFormedTemplate (t : String) : Bool := wfA t.data none

/-- Modelled from the spec (§4.1b, claim C3): the total substitution
renderer — every placeholder is replaced by the lookup's answer (which is
`""` for unknown or missing keys); defined on all inputs, its value is
meaningful on well-formed templates. -/
def specA (L : String → String) : List Char → Option (List Char) → List Char
  | [], _ => []
  | '{' :: '{' :: rest, none => '{' :: specA L rest none
  | '{' :: rest, none => specA L rest (some [])
  | '}' :: '}' :: rest, none => '}' :: specA L rest none
  | '}' :: rest, none => specA L rest none
  | c :: rest, none => c :: specA L rest none
  | '}' :: rest, some acc => (L (String.mk acc.reverse)).data ++ specA L rest none
  | c :: rest, some acc => specA L rest (some (c :: acc))

/-- The spec-side rendering of a template against a follower record. -/
def specRendered (t : String) (f : Follower) : String :=
  String.mk (specA (renderLookup f) t.data none)

/-! ## Remote-service model -/

/-- Observable remote actions and rate-limit sleeps, in program order. -/
inductive Effect where
  | followReq (did : String)
  | likeReq (uri cid : String)
  | convoReq (did : String)
  | sendReq (convo text : String)
  | sleep (seconds : Rat)
deriving DecidableEq

/-- Model of `Profile` (client.py). -/
structure Profile where
  did : String
  handle : String
deriving DecidableEq

/-- One entry of `feed["feed"]` whose `"post"` value is a dict: its `"uri"`
and `"cid"` values. An entry that is not a dict, or whose `"post"` is not a
dict, is modelled as `none` in the item list. -/
structure PostItem where
  uri : Option PyVal := none
  cid : Option PyVal := none
deriving DecidableEq

/-- Response of `get_author_feed`: a raised `BlueskyError`, a dict whose
`"feed"` value is not a list, or the item list (a non-dict response yields
`posts []`, since `_like_latest_post` then iterates over `[]`). -/
inductive FeedResp where
  | err
  | noList
  | posts (items : List (Option PostItem))
deriving DecidableEq

/-- One element of a `"followers"` list: a dict or some non-dict value. -/
inductive FItem where
  | dict (f : Follower)
  | nondict
deriving DecidableEq

/-- Model of `follower.get("did") if isinstance(follower, dict) else None`, kept when
it is a string (automator.py 220-221). -/
def FItem.strDid : FItem → Option String
  | .dict f => f.strDid
  | .nondict => none

/-- The underlying record (only consulted on `dict` items). -/
def FItem.record : FItem → Follower
  | .dict f => f
  | .nondict => []

/-- Response of one `list_own_followers` call: a raised `BlueskyError`, or
followers plus cursor (a non-dict response ≙ `resp [] none`; a dict whose
`"followers"` value is not a list ≙ `resp []` with its cursor). -/
inductive FollowersResp where
  | err
  | resp (followers : List FItem) (cursor : Option String)
deriving DecidableEq

/-- Python truthiness of the cursor (`if not cursor: break`): absent or
empty cursors are falsy. -/
def cursorTruthy : Option String → Bool
  | none => false
  | some s => s ≠ ""

/-- The remote service and clock, as oracles answering every call the
engine makes during one account's run. -/
structure World where
  login : Option Profile := none
  sessionDid : String := ""
  getProfile : String → Option Profile := fun _ => none
  targetFollowers : String → List Follower := fun _ => []
  followOk : String → Bool := fun _ => false
  feed : String → FeedResp := fun _ => .err
  likeOk : String → String → Bool := fun _ _ => false
  ownFollowerPages : List FollowersResp := []
  convoResult : String → Option String := fun _ => none
  sendTransportOk : String → Bool := fun _ => false
  now : Rat := 0
  nowStr : String := ""
  parse : String → Option ParsedTime := fun _ => none

/-- Model of `_effective_delay` (automator.py 293-294). -/
def effective_delay (value : Option Rat) (fallback : Rat) : Rat :=
  match value with
  | none => fallback
  | some v => v

/-- Model of `limit is not None and count >= limit`. -/
def limitReached (limit : Option Int) (count : Nat) : Bool :=
  match limit with
  | none => false
  | some n => (count : Int) ≥ n

/-- Model of `like_limit is None or liked_count < like_limit`. -/
def likeAllowed (limit : Option Int) (count : Nat) : Bool :=
  match limit with
  | none => true
  | some n => (count : Int) < n

/-! ## `_like_latest_post` (automator.py 154-192) -/

/-- The loop over the feed items: skip malformed items; on the first item
with string `uri` and `cid`, return `False` if already liked, otherwise
attempt the like (recording the request), add the uri and return `True` on
success, return `False` leaving state unchanged on a `BlueskyError`. -/
def likePosts (w : World) (ts : TargetState) :
    List (Option PostItem) → Bool × TargetState × List Effect
  | [] => (false, ts, [])
  | none :: rest => likePosts w ts rest
  | some p :: rest =>
    match p.uri, p.cid with
    | some (.vstr uri), some (.vstr cid) =>
        if uri ∈ ts.liked_posts then (false, ts, [])
        else if w.likeOk uri cid then
          (true, { ts with liked_posts := insert uri ts.liked_posts },
            [Effect.likeReq uri cid])
        else (false, ts, [Effect.likeReq uri cid])
    | _, _ => likePosts w ts rest

/-- Model of `_like_latest_post` (automator.py 154-192). -/
def like_latest_post (w : World) (follower : Follower) (ts : TargetState) :
    Bool × TargetState × List Effect :=
  match follower.strDid with
  | none => (false, ts, [])
  | some did =>
    match w.feed did with
    | .err => (false, ts, [])
    | .noList => (false, ts, [])
    | .posts items => likePosts w ts items

/-! ## `_engage_target` (automator.py 79-152) -/

/-- Result of the follower loop of `_engage_target`: final target state,
per-run counters, effect trace, and the part of the (flattened) follower
listing left unvisited when the follow limit broke the loop. -/
structure EngageResult where
  ts : TargetState
  followed_count : Nat
  liked_count : Nat
  effects : List Effect
  remaining : List Follower
deriving DecidableEq

/-- The like step of the loop body (automator.py 132-139): when
`like_latest_post` is enabled and the per-run like counter is under the like
limit, run `_like_latest_post`; on a `True` result count the like and sleep
if the resolved like delay is positive. Returns the updated target state,
like counter and effects. -/
def likeStep (w : World) (likeDelay : Rat) (t : TargetConfig) (f : Follower)
    (ts1 : TargetState) (lc : Nat) : TargetState × Nat × List Effect :=
  if t.like_latest_post && likeAllowed t.like_limit lc then
    match like_latest_post w f ts1 with
    | (true, ts', el) =>
        (ts', lc + 1, el ++ (if 0 < likeDelay then [Effect.sleep likeDelay] else []))
    | (false, ts', el) => (ts', lc, el)
  else (ts1, lc, [])

/-- The `for follower in client.iterate_followers(...)` loop of
`_engage_target` (automator.py 100-145), over the flattened follower
listing. Skips records without a string `"did"`, the session's own did, and
dids already in `followed`. A failed follow still adds the did to
`followed` and continues without counting or sleeping; a successful follow
adds it, counts it, sleeps if the resolved delay is positive, runs the like
step, then breaks out of pagination when the follow limit is reached. -/
def engageLoop (w : World) (followDelay likeDelay : Rat) (t : TargetConfig) :
    List Follower → TargetState → Nat → Nat → EngageResult
  | [], ts, fc, lc => ⟨ts, fc, lc, [], []⟩
  | f :: rest, ts, fc, lc =>
    match f.strDid with
    | none => engageLoop w followDelay likeDelay t rest ts fc lc
    | some did =>
      if did = w.sessionDid then engageLoop w followDelay likeDelay t rest ts fc lc
      else if did ∈ ts.followed then engageLoop w followDelay likeDelay t rest ts fc lc
      else if w.followOk did then
        let ts1 : TargetState := { ts with followed := insert did ts.followed }
        let e1 := Effect.followReq did ::
          (if 0 < followDelay then [Effect.sleep followDelay] else [])
        let step := likeStep w likeDelay t f ts1 lc
        if limitReached t.follow_limit (fc + 1) then
          ⟨step.1, fc + 1, step.2.1, e1 ++ step.2.2, rest⟩
        else
          let r := engageLoop w followDelay likeDelay t rest step.1 (fc + 1) step.2.1
          ⟨r.ts, r.followed_count, r.liked_count, e1 ++ step.2.2 ++ r.effects,
            r.remaining⟩
      else
        let ts1 : TargetState := { ts with followed := insert did ts.followed }
        let r := engageLoop w followDelay likeDelay t rest ts1 fc lc
        ⟨r.ts, r.followed_count, r.liked_count, Effect.followReq did :: r.effects,
          r.remaining⟩

/-- Model of `state.target(handle)` (storage.py 56-59): get-or-create. -/
def getOrCreateTarget (targets : List (String × TargetState)) (handle : String) :
    List (String × TargetState) × TargetState :=
  match List.lookup handle targets with
  | some ts => (targets, ts)
  | none => (targets ++ [(handle, {})], {})

/-- Model of `_engage_target` (automator.py 79-152): resolve the target profile
(abandoning the target on failure), get-or-create its `TargetState`, run the
follower loop, and write the mutated target state back. -/
def engage_target (w : World) (cfg : Config) (a : AccountConfig)
    (t : TargetConfig) (st : AccountState) : AccountState × List Effect :=
  match w.getProfile t.handle with
  | none => (st, [])
  | some p =>
    match getOrCreateTarget st.targets t.handle with
    | (targets1, ts) =>
      let fDelay := effective_delay a.follow_delay_seconds cfg.default_follow_delay_seconds
      let lDelay := effective_delay a.like_delay_seconds cfg.default_like_delay_seconds
      let r := engageLoop w fDelay lDelay t (w.targetFollowers p.did) ts 0 0
      ({ st with targets := pyInsert targets1 t.handle r.ts }, r.effects)

/-! ## Direct messages: client layer (client.py 196-231) -/

/-- The two exception classes the automator's `try` distinguishes
(`DirectMessageNotSupported` is a subclass of `BlueskyError` and is matched
first). -/
inductive CErr where
  | blueskyErr
  | dmNotSupported
deriving DecidableEq

/-- Model of `BlueskyClient.create_or_get_conversation` (client.py 196-222): tries
three endpoints, swallowing each endpoint's `BlueskyError`; it either
returns a conversation id or raises `DirectMessageNotSupported`. The oracle
value is the id the endpoint cascade yields, `none` when it yields none. -/
def create_or_get_conversation (oracle : Option String) : Except CErr String :=
  match oracle with
  | some convoId => .ok convoId
  | none => .error .dmNotSupported

/-- Model of `BlueskyClient.send_direct_message` (client.py 224-231): forwards the
request and re-raises any `BlueskyError` — transient or not — as
`DirectMessageNotSupported`. `transportOk` is the success of the underlying
`chat.bsky.convo.sendMessage` request. -/
def send_direct_message (transportOk : Bool) : Except CErr Unit :=
  if transportOk then .ok () else .error .dmNotSupported

/-! ## `_message_new_followers` (automator.py 195-257) -/

/-- How the messaging procedure left the loop: page list consumed
(`finished`), an explicit `return` (fetch error, per-run limit, or
`DirectMessageNotSupported`), or an uncaught exception from template
rendering (`raised` — it propagates past the save). -/
inductive MsgStatus where
  | finished
  | returned
  | raised
deriving DecidableEq

/-- Result of (part of) the messaging procedure. -/
structure MsgResult where
  st : AccountState
  sent : Nat
  effects : List Effect
  status : MsgStatus
deriving DecidableEq

/-- The `for follower in followers` body of `_message_new_followers`
(automator.py 219-253): skip items without a string did; add the did to
`known_followers`; skip when the cooldown policy says ineligible; `return`
when the per-run limit is reached; render the message; resolve the
conversation and send (a `DirectMessageNotSupported` from either call ⇒
`return`; any other `BlueskyError` ⇒ skip this follower — the automator's
dispatch, kept even though the modelled client never produces it); on
success record `dm_history[did]`, count the send, and sleep if the resolved
delay is positive. -/
def msgFollowers (w : World) (dm : DMConfig) (cooldown : Option Rat)
    (dmDelay : Rat) : List FItem → AccountState → Nat → MsgResult
  | [], st, sent => ⟨st, sent, [], .finished⟩
  | it :: rest, st, sent =>
    match it.strDid with
    | none => msgFollowers w dm cooldown dmDelay rest st sent
    | some did =>
      let st1 : AccountState :=
        { st with known_followers := insert did st.known_followers }
      if !shouldSendDm w.parse w.now did st1.dm_history cooldown then
        msgFollowers w dm cooldown dmDelay rest st1 sent
      else if limitReached dm.limit_per_run sent then ⟨st1, sent, [], .returned⟩
      else
        match render_message dm.message it.record with
        | none => ⟨st1, sent, [], .raised⟩
        | some text =>
          match create_or_get_conversation (w.convoResult did) with
          | .error .dmNotSupported => ⟨st1, sent, [Effect.convoReq did], .returned⟩
          | .error .blueskyErr =>
              let r := msgFollowers w dm cooldown dmDelay rest st1 sent
              ⟨r.st, r.sent, Effect.convoReq did :: r.effects, r.status⟩
          | .ok convoId =>
            match send_direct_message (w.sendTransportOk convoId) with
            | .error .dmNotSupported =>
                ⟨st1, sent, [Effect.convoReq did, Effect.sendReq convoId text], .returned⟩
            | .error .blueskyErr =>
                let r := msgFollowers w dm cooldown dmDelay rest st1 sent
                ⟨r.st, r.sent,
                  Effect.convoReq did :: Effect.sendReq convoId text :: r.effects, r.status⟩
            | .ok _ =>
              let st2 : AccountState :=
                { st1 with dm_history := pyInsert st1.dm_history did w.nowStr }
              let eHere := Effect.convoReq did :: Effect.sendReq convoId text ::
                (if 0 < dmDelay then [Effect.sleep dmDelay] else [])
              let r := msgFollowers w dm cooldown dmDelay rest st2 (sent + 1)
              ⟨r.st, r.sent, eHere ++ r.effects, r.status⟩

/-- The `while True` pagination loop of `_message_new_followers`
(automator.py 208-257): a fetch error ⇒ `return`; otherwise process the
page's followers; stop when the inner loop returned or raised, or when the
cursor is falsy. An exhausted oracle page list (with a pending cursor) is
out of model and treated as `finished`; theorems instantiate it with page
lists whose last page carries no cursor. -/
def msgPages (w : World) (dm : DMConfig) (cooldown : Option Rat) (dmDelay : Rat) :
    List FollowersResp → AccountState → Nat → AccountState × List Effect × MsgStatus
  | [], st, _ => (st, [], .finished)
  | .err :: _, st, _ => (st, [], .returned)
  | .resp fs cursor :: rest, st, sent =>
    let r := msgFollowers w dm cooldown dmDelay fs st sent
    match r.status with
    | .finished =>
        if cursorTruthy cursor then
          match msgPages w dm cooldown dmDelay rest r.st r.sent with
          | (st', effs, status) => (st', r.effects ++ effs, status)
        else (r.st, r.effects, .finished)
    | s => (r.st, r.effects, s)

/-- Model of `_message_new_followers` (automator.py 195-257):
`cooldown = timedelta(hours=h) if h else None` (a falsy — zero — hours value
gives no cooldown; the duration is h·3600 seconds), and the DM delay reuses
the follow-delay resolution. -/
def message_new_followers (w : World) (a : AccountConfig) (cfg : Config)
    (st : AccountState) : AccountState × List Effect × MsgStatus :=
  let cooldown : Option Rat :=
    if a.dm.cooldown_hours ≠ 0 then some (a.dm.cooldown_hours * 3600) else none
  let dmDelay := effective_delay a.follow_delay_seconds cfg.default_follow_delay_seconds
  msgPages w a.dm cooldown dmDelay w.ownFollowerPages st 0

/-! ## `_run_for_account` (automator.py 48-76) -/

/-- The whitespace set of Python `str.strip()` (ASCII part; the templates at
issue are ASCII). -/
def pyIsSpace (c : Char) : Bool :=
  c = ' ' || c = '\t' || c = '\n' || c = '\r' || c = '\x0b' || c = '\x0c'

/-- Python `str.strip()`. -/
def pyStrip (s : String) : String :=
  String.mk (((s.data.dropWhile pyIsSpace).reverse.dropWhile pyIsSpace).reverse)

/-- Model of `_run_for_account` (automator.py 48-76): load state; in dry-run mode
stop before any remote call; authenticate, aborting this account without
saving on a `BlueskyError`; engage every configured target; run the
messaging procedure when DMs are enabled and the stripped template is
nonempty (an exception raised there propagates past the save); finally save
the mutated state. Returns the updated store and the effect trace. -/
def run_for_account (w : World) (cfg : Config) (a : AccountConfig)
    (store : Store) (dry_run : Bool) : Store × List Effect :=
  let st := store.load a.handle
  if dry_run then (store, [])
  else
    match w.login with
    | none => (store, [])
    | some _ =>
      let (st1, effs1) := a.follow_targets.foldl
        (fun acc t =>
          match engage_target w cfg a t acc.1 with
          | (st', effs) => (st', acc.2 ++ effs))
        (st, ([] : List Effect))
      if a.dm.enabled && pyStrip a.dm.message ≠ "" then
        match message_new_followers w a cfg st1 with
        | (st2, effs2, status) =>
          if status = .raised then (store, effs1 ++ effs2)
          else (store.save a.handle st2, effs1 ++ effs2)
      else (store.save a.handle st1, effs1)

/-! ## Concrete fixtures used by witnesses and counterexamples -/

/-- Whether every character of a handle is in the safe class. -/
def allSafe (s : String) : Bool := s.data.all safeChar

/-- An empty store directory. -/
def storeEmpty : Store := fun _ => none

/-- A sample account state: one known follower, one DM record, one target. -/
def stWit : AccountState :=
  { known_followers := {"did-a"},
    dm_history := [("did-a", "2024-01-01T00:00:00+00:00")],
    targets := [("tgt", { followed := {"did-b"}, liked_posts := {"at-p1"} })] }

/-- A follower record whose did is the string `"d1"`. -/
def fWitD1 : Follower := [("did", PyVal.vstr "d1")]

/-- A follower record whose did is the string `"d2"`. -/
def fWitD2 : Follower := [("did", PyVal.vstr "d2")]

/-- A follower record with no `"did"` key at all. -/
def fNoDid : Follower := [("handle", PyVal.vstr "x")]

/-- A follower record carrying only a did. -/
def fWitDidOnly : Follower := [("did", PyVal.vstr "d")]

/-- A world in which every follow attempt raises a `BlueskyError`. -/
def wFollowFail : World := { sessionDid := "me" }

/-- A world in which every follow attempt succeeds. -/
def wFollowAll : World := { sessionDid := "me", followOk := fun _ => true }

/-- A target configured with `follow_limit = 0` and no like step. -/
def tLimit0 : TargetConfig :=
  { handle := "t", follow_limit := some 0, like_latest_post := false }

/-- A target configured with `follow_limit = 1` and no like step. -/
def tLimit1 : TargetConfig :=
  { handle := "t", follow_limit := some 1, like_latest_post := false }

/-- A target with no limits. -/
def tPlain : TargetConfig := { handle := "t" }

/-- Messaging world for claim C1: one page with two fresh followers; the
conversation resolves for both; the raw transport send fails for d1's
conversation (e.g. an HTTP 500 — a transient `BlueskyError`) and would
succeed for d2's. -/
def wSendFail : World :=
  { convoResult := fun did =>
      if did = "d1" then some "c1" else if did = "d2" then some "c2" else none,
    sendTransportOk := fun convo => convo = "c2",
    ownFollowerPages := [.resp [.dict fWitD1, .dict fWitD2] none],
    nowStr := "2025-06-01T00:00:00+00:00" }

/-- An account with DMs enabled and the template `"hello"`. -/
def aDmHello : AccountConfig :=
  { handle := "me", dm := { enabled := true, message := "hello" },
    follow_delay_seconds := some 0 }

/-- A well-formed sample template. -/
def tmplWit : String := "hi {handle}, {unknown}!"

/-- A minimal account configuration. -/
def aPlain : AccountConfig := { handle := "alice" }

/-- A world whose login raises a `BlueskyError`. -/
def wNoLogin : World := {}

/-! ## Helper lemmas -/

theorem map_safe_id (l : List Char) (hs : l.all safeChar = true) :
    l.map (fun c => if safeChar c then c else '_') = l := by
  induction l with
  | nil => rfl
  | cons c rest ih =>
    simp only [List.all_cons, Bool.and_eq_true] at hs
    simp [hs.1, ih hs.2]

theorem sanitizeHandle_of_safe (h : String) (hs : allSafe h = true) :
    sanitizeHandle h = h := by
  cases h with
  | mk l =>
    unfold sanitizeHandle
    rw [map_safe_id l hs]

theorem pyInsert_of_not_mem {α : Type} (l : List (String × α)) (k : String) (v : α)
    (h : k ∉ l.map Prod.fst) : pyInsert l k v = l ++ [(k, v)] := by
  induction l with
  | nil => rfl
  | cons p rest ih =>
    simp only [List.map_cons, List.mem_cons, not_or] at h
    simp only [pyInsert, if_neg (fun e : p.1 = k => h.1 e.symm), List.cons_append,
      ih h.2]

theorem pyDict_foldl_eq {α : Type} (l : List (String × α)) :
    ∀ acc : List (String × α), (acc.map Prod.fst ++ l.map Prod.fst).Nodup →
      l.foldl (fun a p => pyInsert a p.1 p.2) acc = acc ++ l := by
  induction l with
  | nil => intro acc _; simp
  | cons p rest ih =>
    intro acc h
    have hk : p.1 ∉ acc.map Prod.fst := by
      intro hmem
      have hd := (List.nodup_append.mp h).2.2
      exact (hd hmem) (by simp)
    have h' : ((acc ++ [p]).map Prod.fst ++ rest.map Prod.fst).Nodup := by
      simpa [List.append_assoc] using h
    simp only [List.foldl_cons, pyInsert_of_not_mem acc p.1 p.2 hk]
    rw [ih (acc ++ [p]) h']
    simp

theorem pyDict_eq_self {α : Type} (l : List (String × α))
    (h : (l.map Prod.fst).Nodup) : pyDict l = l := by
  have h0 := pyDict_foldl_eq l [] (by simpa using h)
  simpa [pyDict] using h0

theorem targetState_roundtrip (t : TargetState) :
    TargetState.from_dict t.to_dict = t := by
  simp [TargetState.from_dict, TargetState.to_dict, Finset.sort_toFinset]

theorem map_from_to_targets (l : List (String × TargetState)) :
    l.map (fun p => (p.1, TargetState.from_dict p.2.to_dict)) = l := by
  induction l with
  | nil => rfl
  | cons p rest ih => simp [targetState_roundtrip, ih]

theorem accountState_roundtrip (s : AccountState)
    (h1 : (s.dm_history.map Prod.fst).Nodup)
    (h2 : (s.targets.map Prod.fst).Nodup) :
    AccountState.from_dict s.to_dict = s := by
  unfold AccountState.from_dict AccountState.to_dict
  simp only [List.map_map]
  have hcomp :
      ((fun p : String × TargetDict => (p.1, TargetState.from_dict p.2)) ∘
        (fun p : String × TargetState => (p.1, p.2.to_dict))) =
      fun p : String × TargetState => (p.1, TargetState.from_dict p.2.to_dict) := rfl
  rw [hcomp, map_from_to_targets, pyDict_eq_self _ h1, pyDict_eq_self _ h2,
    Finset.sort_toFinset]

theorem likePosts_state (w : World) (ts : TargetState) (items : List (Option PostItem)) :
    (likePosts w ts items).2.1.followed = ts.followed ∧
    ts.liked_posts ⊆ (likePosts w ts items).2.1.liked_posts := by
  induction items with
  | nil => exact ⟨rfl, Finset.Subset.refl _⟩
  | cons it rest ih =>
    cases it with
    | none => simpa [likePosts] using ih
    | some p =>
      simp only [likePosts]
      split
      · split_ifs with h1 h2
        · exact ⟨rfl, Finset.Subset.refl _⟩
        · exact ⟨rfl, Finset.subset_insert _ _⟩
        · exact ⟨rfl, Finset.Subset.refl _⟩
      · exact ih

theorem like_latest_state (w : World) (f : Follower) (ts : TargetState) :
    (like_latest_post w f ts).2.1.followed = ts.followed ∧
    ts.liked_posts ⊆ (like_latest_post w f ts).2.1.liked_posts := by
  unfold like_latest_post
  split
  · exact ⟨rfl, Finset.Subset.refl _⟩
  · split
    · exact ⟨rfl, Finset.Subset.refl _⟩
    · exact ⟨rfl, Finset.Subset.refl _⟩
    · exact likePosts_state w ts _

theorem likeStep_state (w : World) (ld : Rat) (t : TargetConfig) (f : Follower)
    (ts1 : TargetState) (lc : Nat) :
    (likeStep w ld t f ts1 lc).1.followed = ts1.followed ∧
    ts1.liked_posts ⊆ (likeStep w ld t f ts1 lc).1.liked_posts := by
  unfold likeStep
  split
  · split
    · rename_i ts' el heq
      have h0 := like_latest_state w f ts1
      rw [heq] at h0
      exact h0
    · rename_i ts' el heq
      have h0 := like_latest_state w f ts1
      rw [heq] at h0
      exact h0
  · exact ⟨rfl, Finset.Subset.refl _⟩

theorem engageLoop_state (w : World) (fd ld : Rat) (t : TargetConfig) :
    ∀ (fs : List Follower) (ts : TargetState) (fc lc : Nat),
      ts.followed ⊆ (engageLoop w fd ld t fs ts fc lc).ts.followed ∧
      ts.liked_posts ⊆ (engageLoop w fd ld t fs ts fc lc).ts.liked_posts := by
  intro fs
  induction fs with
  | nil => intro ts fc lc; exact ⟨Finset.Subset.refl _, Finset.Subset.refl _⟩
  | cons f rest ih =>
    intro ts fc lc
    simp only [engageLoop]
    split
    · exact ih ts fc lc
    · rename_i did hdid
      by_cases h1 : did = w.sessionDid
      · rw [if_pos h1]; exact ih ts fc lc
      · rw [if_neg h1]
        by_cases h2 : did ∈ ts.followed
        · rw [if_pos h2]; exact ih ts fc lc
        · rw [if_neg h2]
          by_cases h3 : w.followOk did = true
          · rw [if_pos h3]
            by_cases h4 : limitReached t.follow_limit (fc + 1) = true
            · rw [if_pos h4]
              dsimp only
              constructor
              · rw [(likeStep_state w ld t f
                  { ts with followed := insert did ts.followed } lc).1]
                exact Finset.subset_insert _ _
              · exact (likeStep_state w ld t f
                  { ts with followed := insert did ts.followed } lc).2
            · rw [if_neg h4]
              dsimp only
              constructor
              · refine Finset.Subset.trans ?_
                  (ih (likeStep w ld t f { ts with followed := insert did ts.followed } lc).1
                    (fc + 1)
                    (likeStep w ld t f { ts with followed := insert did ts.followed } lc).2.1).1
                rw [(likeStep_state w ld t f
                  { ts with followed := insert did ts.followed } lc).1]
                exact Finset.subset_insert _ _
              · exact Finset.Subset.trans
                  (likeStep_state w ld t f
                    { ts with followed := insert did ts.followed } lc).2
                  (ih (likeStep w ld t f { ts with followed := insert did ts.followed } lc).1
                    (fc + 1)
                    (likeStep w ld t f { ts with followed := insert did ts.followed } lc).2.1).2
          · rw [if_neg h3]
            dsimp only
            exact ⟨Finset.Subset.trans (Finset.subset_insert _ _)
                (ih { ts with followed := insert did ts.followed } fc lc).1,
              (ih { ts with followed := insert did ts.followed } fc lc).2⟩

theorem engageLoop_remaining_suffix (w : World) (fd ld : Rat) (t : TargetConfig) :
    ∀ (fs : List Follower) (ts : TargetState) (fc lc : Nat),
      (engageLoop w fd ld t fs ts fc lc).remaining.IsSuffix fs := by
  intro fs
  induction fs with
  | nil => intro ts fc lc; exact List.suffix_refl _
  | cons f rest ih =>
    intro ts fc lc
    simp only [engageLoop]
    split
    · exact (ih ts fc lc).trans (List.suffix_cons f rest)
    · rename_i did hdid
      by_cases h1 : did = w.sessionDid
      · rw [if_pos h1]; exact (ih ts fc lc).trans (List.suffix_cons f rest)
      · rw [if_neg h1]
        by_cases h2 : did ∈ ts.followed
        · rw [if_pos h2]; exact (ih ts fc lc).trans (List.suffix_cons f rest)
        · rw [if_neg h2]
          by_cases h3 : w.followOk did = true
          · rw [if_pos h3]
            by_cases h4 : limitReached t.follow_limit (fc + 1) = true
            · rw [if_pos h4]
              exact List.suffix_cons f rest
            · rw [if_neg h4]
              dsimp only
              exact (ih _ _ _).trans (List.suffix_cons f rest)
          · rw [if_neg h3]
            dsimp only
            exact (ih _ _ _).trans (List.suffix_cons f rest)

theorem engageLoop_fc_bound (w : World) (fd ld : Rat) (t : TargetConfig) (N : Int)
    (hN : t.follow_limit = some N) :
    ∀ (fs : List Follower) (ts : TargetState) (fc lc : Nat), (fc : Int) < N →
      ((engageLoop w fd ld t fs ts fc lc).followed_count : Int) ≤ N ∧
      ((engageLoop w fd ld t fs ts fc lc).remaining ≠ [] →
        ((engageLoop w fd ld t fs ts fc lc).followed_count : Int) = N) := by
  intro fs
  induction fs with
  | nil =>
    intro ts fc lc hfc
    exact ⟨le_of_lt hfc, fun h => absurd rfl h⟩
  | cons f rest ih =>
    intro ts fc lc hfc
    simp only [engageLoop]
    split
    · exact ih ts fc lc hfc
    · rename_i did hdid
      by_cases h1 : did = w.sessionDid
      · rw [if_pos h1]; exact ih ts fc lc hfc
      · rw [if_neg h1]
        by_cases h2 : did ∈ ts.followed
        · rw [if_pos h2]; exact ih ts fc lc hfc
        · rw [if_neg h2]
          by_cases h3 : w.followOk did = true
          · rw [if_pos h3]
            by_cases h4 : limitReached t.follow_limit (fc + 1) = true
            · rw [if_pos h4]
              simp only [limitReached, hN, ge_iff_le, decide_eq_true_eq] at h4
              dsimp only
              exact ⟨by omega, fun _ => by omega⟩
            · rw [if_neg h4]
              simp only [limitReached, hN, ge_iff_le, decide_eq_true_eq] at h4
              dsimp only
              exact ih _ (fc + 1) _ (by omega)
          · rw [if_neg h3]
            dsimp only
            exact ih _ fc lc hfc

theorem msgFollowers_state (w : World) (dm : DMConfig) (cd : Option Rat) (dd : Rat) :
    ∀ (fs : List FItem) (st : AccountState) (sent : Nat),
      st.known_followers ⊆ (msgFollowers w dm cd dd fs st sent).st.known_followers ∧
      (msgFollowers w dm cd dd fs st sent).st.targets = st.targets := by
  intro fs
  induction fs with
  | nil => intro st sent; exact ⟨Finset.Subset.refl _, rfl⟩
  | cons it rest ih =>
    intro st sent
    simp only [msgFollowers]
    split
    · exact ih st sent
    · rename_i did hdid
      by_cases h1 : (!shouldSendDm w.parse w.now did
          ({ st with known_followers := insert did st.known_followers} : AccountState).dm_history cd) = true
      · rw [if_pos h1]
        have hrec := ih { st with known_followers := insert did st.known_followers } sent
        exact ⟨Finset.Subset.trans (Finset.subset_insert _ _) hrec.1, hrec.2⟩
      · rw [if_neg h1]
        by_cases h2 : limitReached dm.limit_per_run sent = true
        · rw [if_pos h2]
          exact ⟨Finset.subset_insert _ _, rfl⟩
        · rw [if_neg h2]
          split
          · exact ⟨Finset.subset_insert _ _, rfl⟩
          · split
            · exact ⟨Finset.subset_insert _ _, rfl⟩
            · dsimp only
              have hrec := ih { st with known_followers := insert did st.known_followers } sent
              exact ⟨Finset.Subset.trans (Finset.subset_insert _ _) hrec.1, hrec.2⟩
            · split
              · exact ⟨Finset.subset_insert _ _, rfl⟩
              · dsimp only
                have hrec := ih { st with known_followers := insert did st.known_followers } sent
                exact ⟨Finset.Subset.trans (Finset.subset_insert _ _) hrec.1, hrec.2⟩
              · dsimp only
                have hrec := ih
                  { st with
                      known_followers := insert did st.known_followers,
                      dm_history := pyInsert st.dm_history did w.nowStr }
                  (sent + 1)
                exact ⟨Finset.Subset.trans (Finset.subset_insert _ _) hrec.1, hrec.2⟩

theorem msgPages_state (w : World) (dm : DMConfig) (cd : Option Rat) (dd : Rat) :
    ∀ (pages : List FollowersResp) (st : AccountState) (sent : Nat),
      st.known_followers ⊆ (msgPages w dm cd dd pages st sent).1.known_followers ∧
      (msgPages w dm cd dd pages st sent).1.targets = st.targets := by
  intro pages
  induction pages with
  | nil => intro st sent; exact ⟨Finset.Subset.refl _, rfl⟩
  | cons pg rest ih =>
    intro st sent
    cases pg with
    | err => exact ⟨Finset.Subset.refl _, rfl⟩
    | resp fs cursor =>
      simp only [msgPages]
      have hf := msgFollowers_state w dm cd dd fs st sent
      split
      · by_cases hc : cursorTruthy cursor = true
        · rw [if_pos hc]
          dsimp only
          have hrec := ih (msgFollowers w dm cd dd fs st sent).st
            (msgFollowers w dm cd dd fs st sent).sent
          exact ⟨Finset.Subset.trans hf.1 hrec.1, hrec.2.trans hf.2⟩
        · rw [if_neg hc]
          exact hf
      · exact hf

theorem scanA_eq_spec (L : String → String) :
    ∀ (cs : List Char) (m : Option (List Char)), wfA cs m = true →
      scanA L cs m = some (specA L cs m) := by
  intro cs m
  induction cs, m using wfA.induct <;>
    simp_all [scanA, wfA, specA, Bool.and_eq_true]

/-! ## Claim theorems -/

/-- C1 (code bug): the claim says only a direct-messaging-unsupported
signal aborts the entire messaging procedure while any other send failure
merely skips that follower; but `send_direct_message` re-raises every
`BlueskyError` as `DirectMessageNotSupported` (and the conversation
resolver raises nothing else either), so the automator's skip branch is
unreachable and any transport-level send failure aborts the whole
procedure. Concretely: with two fresh followers d1 and d2 and a transient
transport failure on d1's send, messaging returns after d1 — d2 is never
visited, not even added to `known_followers`. -/
theorem c1_transient_send_failure_aborts_all :
    (∀ ok : Bool, send_direct_message ok ≠ .error .blueskyErr)
    ∧ (∀ o : Option String, create_or_get_conversation o ≠ .error .blueskyErr)
    ∧ message_new_followers wSendFail aDmHello {} {} =
        ({ known_followers := {"d1"}, dm_history := [], targets := [] },
          [Effect.convoReq "d1", Effect.sendReq "c1" "hello"], MsgStatus.returned)
    ∧ "d2" ∉ (message_new_followers wSendFail aDmHello {} {}).1.known_followers := by
  refine ⟨?_, ?_, ?_, ?_⟩
  · intro ok; cases ok <;> simp [send_direct_message]
  · intro o; cases o <;> simp [create_or_get_conversation]
  · decide
  · decide

/-- C2 is false as stated: the sanitizing substitution maps the distinct
handles `"a b"` and `"a_b"` to the same storage path, so saving one
overwrites the other's record. -/
theorem c2_counterexample :
    ("a b" : String) ≠ "a_b" ∧ path_for "a b" = path_for "a_b" := by
  exact ⟨by decide, by decide⟩

/-- C2 amended: the handle-to-path mapping is injective on handles made
only of characters from the safe class `[a-zA-Z0-9_.-]` (on such handles
the substitution is the identity); distinct handles may collide only when
one contains an unsafe character. -/
theorem c2_sanitize_injective_on_safe (h1 h2 : String)
    (s1 : allSafe h1 = true) (s2 : allSafe h2 = true) (hne : h1 ≠ h2) :
    path_for h1 ≠ path_for h2 := by
  unfold path_for
  rw [sanitizeHandle_of_safe h1 s1, sanitizeHandle_of_safe h2 s2]
  intro he
  apply hne
  have hd : h1.data ++ ".json".data = h2.data ++ ".json".data :=
    congrArg String.data he
  exact String.ext (List.append_cancel_right hd)

theorem c2_amended_witness :
    (allSafe "alice.bsky.social" = true ∧ allSafe "bob.bsky.social" = true
      ∧ ("alice.bsky.social" : String) ≠ "bob.bsky.social")
    ∧ path_for "alice.bsky.social" ≠ path_for "bob.bsky.social" :=
  ⟨⟨by decide, by decide, by decide⟩,
    c2_sanitize_injective_on_safe "alice.bsky.social" "bob.bsky.social"
      (by decide) (by decide) (by decide)⟩

/-- C3 is false as stated: rendering is not failure-free for EVERY template
string — the template consisting of the single character `\x7b` makes
`str.format_map` raise `ValueError` even under `SafeDict` (modelled as
`none`). -/
theorem c3_counterexample : render_message "\x7b" [] = none := by decide

/-- C3 amended: for every template in the well-formed fragment (literal
text, doubled braces, simple named placeholders) and every follower record,
rendering never fails and equals the total substitution renderer; the
substitution policy sends each recognized placeholder missing from the
record, and every unknown placeholder, to the empty string. -/
theorem c3_wellformed_render_total (t : String) (f : Follower)
    (h : wellFormedTemplate t = true) :
    render_message t f = some (specRendered t f)
    ∧ (f.get "handle" = none → renderLookup f "handle" = "")
    ∧ (f.get "displayName" = none → renderLookup f "displayName" = "")
    ∧ (f.get "did" = none → renderLookup f "did" = "")
    ∧ (∀ key, key ≠ "handle" → key ≠ "displayName" → key ≠ "did" →
        renderLookup f key = "") := by
  refine ⟨?_, ?_, ?_, ?_, ?_⟩
  · unfold render_message pyFormatMap specRendered
    rw [scanA_eq_spec (renderLookup f) t.data none h]
    rfl
  · intro hnone; simp [renderLookup, hnone, PyVal.toStr]
  · intro hnone; simp [renderLookup, hnone, PyVal.toStr]
  · intro hnone; simp [renderLookup, hnone, PyVal.toStr]
  · intro key hk1 hk2 hk3; simp [renderLookup, hk1, hk2, hk3]

theorem c3_amended_witness :
    wellFormedTemplate tmplWit = true
    ∧ render_message tmplWit fWitDidOnly = some (specRendered tmplWit fWitDidOnly) :=
  ⟨by decide, (c3_wellformed_render_total tmplWit fWitDidOnly (by decide)).1⟩

/-- C4: the DM eligibility decision implemented by `_should_send_dm`
coincides, on every identifier, history, cooldown, clock and parser, with
the spec's cooldown policy: eligible when no `dm_history` entry exists;
ineligible when an entry exists and the cooldown is zero or unset;
otherwise eligible iff elapsed time since the stored timestamp (naive
timestamps read as UTC; empty or unparseable ones eligible) is at least the
cooldown. -/
theorem c4_cooldown_policy_matches_spec (parse : String → Option ParsedTime)
    (now : Rat) (did : String) (hist : List (String × String))
    (cooldown : Option Rat) :
    shouldSendDm parse now did hist cooldown =
      specEligible parse now did hist cooldown := by
  unfold shouldSendDm specEligible specStoredInstant
  cases hl : List.lookup did hist with
  | none => simp [hl]
  | some stored =>
    cases cooldown with
    | none => simp [hl]
    | some d =>
      by_cases hd : d = 0
      · simp [hl, hd]
      · by_cases hs : stored = ""
        · simp [hl, hd, hs]
        · cases hp : parse stored with
          | none => simp [hl, hd, hs, hp]
          | some pt => simp [hl, hd, hs, hp]

/-- C5: when the follow attempt for a fresh identifier fails, the
identifier is still added to the target's `followed` set, the per-run
follow counter is not incremented, the only effect for this follower is the
follow request itself (no sleep), processing continues with the remaining
followers, and the identifier is in the final `followed` set (so it is
never retried). -/
theorem c5_failed_follow_marks_and_continues (w : World) (fd ld : Rat)
    (t : TargetConfig) (f : Follower) (rest : List Follower) (ts : TargetState)
    (fc lc : Nat) (did : String) (hdid : f.strDid = some did)
    (hself : did ≠ w.sessionDid) (hnew : did ∉ ts.followed)
    (hfail : w.followOk did = false) :
    engageLoop w fd ld t (f :: rest) ts fc lc =
      { engageLoop w fd ld t rest { ts with followed := insert did ts.followed } fc lc
          with effects := Effect.followReq did ::
            (engageLoop w fd ld t rest { ts with followed := insert did ts.followed }
              fc lc).effects }
    ∧ did ∈ (engageLoop w fd ld t (f :: rest) ts fc lc).ts.followed := by
  have hstep : engageLoop w fd ld t (f :: rest) ts fc lc =
      { engageLoop w fd ld t rest { ts with followed := insert did ts.followed } fc lc
          with effects := Effect.followReq did ::
            (engageLoop w fd ld t rest { ts with followed := insert did ts.followed }
              fc lc).effects } := by
    simp only [engageLoop, hdid]
    rw [if_neg hself, if_neg hnew, if_neg (by simp [hfail])]
  refine ⟨hstep, ?_⟩
  rw [hstep]
  exact (engageLoop_state w fd ld t rest
    { ts with followed := insert did ts.followed } fc lc).1
    (Finset.mem_insert_self did ts.followed)

theorem c5_witness :
    (fWitD1.strDid = some "d1" ∧ "d1" ≠ wFollowFail.sessionDid
      ∧ "d1" ∉ ({} : TargetState).followed ∧ wFollowFail.followOk "d1" = false)
    ∧ "d1" ∈ (engageLoop wFollowFail 0 0 tPlain [fWitD1] {} 0 0).ts.followed :=
  ⟨⟨by decide, by decide, by decide, by decide⟩,
    (c5_failed_follow_marks_and_continues wFollowFail 0 0 tPlain fWitD1 [] {} 0 0 "d1"
      (by decide) (by decide) (by decide) (by decide)).2⟩

/-- C6 is false as stated at `follow_limit = 0`: the limit is only checked
after a successful follow, so a target with limit 0 still gets one
identifier followed in a run. -/
theorem c6_counterexample :
    tLimit0.follow_limit = some 0 ∧
    (engageLoop wFollowAll 0 0 tLimit0 [fWitD1] {} 0 0).followed_count = 1 := by
  exact ⟨rfl, by decide⟩

/-- C6 amended: for a target with `follow_limit = N` where `N ≥ 1`, a run
starting with counter 0 successfully follows at most N identifiers, the
unvisited part of the listing is a suffix of it, and the loop stops early
(leaves a nonempty suffix unvisited) only upon completing exactly the N-th
successful follow. -/
theorem c6_follow_limit_bound (w : World) (fd ld : Rat) (t : TargetConfig)
    (fs : List Follower) (ts : TargetState) (N : Int)
    (hN : t.follow_limit = some N) (h1 : 1 ≤ N) :
    ((engageLoop w fd ld t fs ts 0 0).followed_count : Int) ≤ N
    ∧ (engageLoop w fd ld t fs ts 0 0).remaining.IsSuffix fs
    ∧ ((engageLoop w fd ld t fs ts 0 0).remaining ≠ [] →
        ((engageLoop w fd ld t fs ts 0 0).followed_count : Int) = N) := by
  have hb := engageLoop_fc_bound w fd ld t N hN fs ts 0 0 (by exact_mod_cast h1)
  exact ⟨hb.1, engageLoop_remaining_suffix w fd ld t fs ts 0 0, hb.2⟩

theorem c6_witness :
    (tLimit1.follow_limit = some 1 ∧ (1 : Int) ≤ 1)
    ∧ ((engageLoop wFollowAll 0 0 tLimit1 [fWitD1, fWitD2] {} 0 0).followed_count : Int) ≤ 1 :=
  ⟨⟨rfl, by decide⟩,
    (c6_follow_limit_bound wFollowAll 0 0 tLimit1 [fWitD1, fWitD2] {} 1 rfl
      (by decide)).1⟩

/-- C7: `save` for a handle followed by `load` of the same handle yields
exactly the state saved — `known_followers` and each target's sets come
back from their sorted serialization as the same `Finset`s, and the
`dm_history`/`targets` mappings round-trip (their keys are unique, being
Python dict keys). -/
theorem c7_save_load_roundtrip (store : Store) (handle : String)
    (s : AccountState)
    (h1 : (s.dm_history.map Prod.fst).Nodup)
    (h2 : (s.targets.map Prod.fst).Nodup) :
    (store.save handle s).load handle = s := by
  unfold Store.load Store.save
  simp [accountState_roundtrip s h1 h2]

theorem c7_witness :
    ((stWit.dm_history.map Prod.fst).Nodup ∧ (stWit.targets.map Prod.fst).Nodup)
    ∧ (storeEmpty.save "alice.bsky.social" stWit).load "alice.bsky.social" = stWit :=
  ⟨⟨by decide, by decide⟩,
    c7_save_load_roundtrip storeEmpty "alice.bsky.social" stWit (by decide) (by decide)⟩

/-- C8: when authentication fails, the account's workflow stops before any
engagement or messaging (the effect trace is empty) and nothing is saved —
the store is returned unchanged, so the stored record for the handle is
what it was before the run. -/
theorem c8_auth_failure_no_persist (w : World) (cfg : Config)
    (a : AccountConfig) (store : Store) (h : w.login = none) :
    run_for_account w cfg a store false = (store, []) := by
  simp [run_for_account, h]

theorem c8_witness :
    wNoLogin.login = none
    ∧ run_for_account wNoLogin {} aPlain storeEmpty false = (storeEmpty, []) :=
  ⟨rfl, c8_auth_failure_no_persist wNoLogin {} aPlain storeEmpty rfl⟩

/-- C9: across the engagement loop, the like procedure and the messaging
procedure, `known_followers`, every `followed` set and every `liked_posts`
set only gain elements (and the messaging procedure never touches the
targets map at all). -/
theorem c9_collections_append_only :
    (∀ (w : World) (fd ld : Rat) (t : TargetConfig) (fs : List Follower)
        (ts : TargetState) (fc lc : Nat),
      ts.followed ⊆ (engageLoop w fd ld t fs ts fc lc).ts.followed ∧
      ts.liked_posts ⊆ (engageLoop w fd ld t fs ts fc lc).ts.liked_posts)
    ∧ (∀ (w : World) (f : Follower) (ts : TargetState),
      ts.followed ⊆ (like_latest_post w f ts).2.1.followed ∧
      ts.liked_posts ⊆ (like_latest_post w f ts).2.1.liked_posts)
    ∧ (∀ (w : World) (dm : DMConfig) (cd : Option Rat) (dd : Rat)
        (fs : List FItem) (st : AccountState) (sent : Nat),
      st.known_followers ⊆ (msgFollowers w dm cd dd fs st sent).st.known_followers ∧
      (msgFollowers w dm cd dd fs st sent).st.targets = st.targets)
    ∧ (∀ (w : World) (dm : DMConfig) (cd : Option Rat) (dd : Rat)
        (pages : List FollowersResp) (st : AccountState) (sent : Nat),
      st.known_followers ⊆ (msgPages w dm cd dd pages st sent).1.known_followers ∧
      (msgPages w dm cd dd pages st sent).1.targets = st.targets) :=
  ⟨fun w fd ld t fs ts fc lc => engageLoop_state w fd ld t fs ts fc lc,
    fun w f ts => ⟨le_of_eq (like_latest_state w f ts).1.symm, (like_latest_state w f ts).2⟩,
    fun w dm cd dd fs st sent => msgFollowers_state w dm cd dd fs st sent,
    fun w dm cd dd pages st sent => msgPages_state w dm cd dd pages st sent⟩

/-- C10: a follower record whose `"did"` is missing or not a string is
skipped entirely: the engagement loop's result on it is identical to the
result without it, the like procedure refuses it without touching state or
issuing requests, and the messaging loop's result on it is identical to the
result without it (in particular it is not added to `known_followers`). -/
theorem c10_invalid_did_skipped (w : World) (fd ld dd : Rat) (cd : Option Rat)
    (t : TargetConfig) (dm : DMConfig) (f : Follower) (it : FItem)
    (rest : List Follower) (mrest : List FItem) (ts : TargetState)
    (st : AccountState) (fc lc sent : Nat)
    (hf : f.strDid = none) (hit : it.strDid = none) :
    engageLoop w fd ld t (f :: rest) ts fc lc = engageLoop w fd ld t rest ts fc lc
    ∧ like_latest_post w f ts = (false, ts, [])
    ∧ msgFollowers w dm cd dd (it :: mrest) st sent =
        msgFollowers w dm cd dd mrest st sent := by
  refine ⟨?_, ?_, ?_⟩
  · simp only [engageLoop, hf]
  · simp only [like_latest_post, hf]
  · simp only [msgFollowers, hit]

theorem c10_witness :
    (fNoDid.strDid = none ∧ FItem.nondict.strDid = none)
    ∧ like_latest_post wFollowAll fNoDid {} = (false, {}, []) :=
  ⟨⟨by decide, by decide⟩,
    (c10_invalid_did_skipped wFollowAll 0 0 0 none tPlain {} fNoDid FItem.nondict
      [] [] {} {} 0 0 0 (by decide) (by decide)).2.1⟩

end BlueskyTool
